import Mathlib

/-
Verification of the multi-channel MRI data-simulation pipeline in
`deepinpy/forwards/mcmri/dataset.py` (class `MultiChannelMRIDataset` and the
module-level loaders `load_data` / `load_data_ksp`).

Shallow embedding conventions:
  * numpy arrays of rank 2/3/4 become structures holding their dimensions and a
    total index function `dat`; out-of-range indices return junk values, and all
    statements about entries carry in-range hypotheses.
  * numpy's elementwise broadcasting (with its ValueError on incompatible
    shapes) is implemented in `bop4` / `bdim` / `bix`, mirroring the rule used
    by expressions such as `masks[None,...] * (ksp + c * noise)`.
  * Python exceptions (assertion failures, KeyError on missing h5 datasets,
    broadcast ValueError, unbound names) become an `Except PyErr` result.
  * the scalar type is an abstract commutative star-ring `K` standing for the
    complex floats of the source; float rounding is not modelled.
  * `np.random.randn` draws are passed in explicitly as the `fresh` argument so
    that (non)determinism is visible in the statements.
-/

namespace Mcmri

/-- Rank-2 numpy array: dimensions and a total index function. -/
structure Arr2 (K : Type) where
  n1 : Nat
  n2 : Nat
  dat : Nat → Nat → K

/-- Rank-3 numpy array. -/
structure Arr3 (K : Type) where
  n1 : Nat
  n2 : Nat
  n3 : Nat
  dat : Nat → Nat → Nat → K

/-- Rank-4 numpy array. -/
structure Arr4 (K : Type) where
  n1 : Nat
  n2 : Nat
  n3 : Nat
  n4 : Nat
  dat : Nat → Nat → Nat → Nat → K

/-- Python exceptions that the embedded pipeline can raise. -/
inductive PyErr where
  | assertionError : String → PyErr
  | keyError : PyErr
  | valueError : PyErr
  | typeError : PyErr
  | unboundLocal : PyErr
deriving DecidableEq

variable {K : Type} [CommRing K] [StarRing K]

/-- Broadcast of one numpy axis: equal sizes pass through, a size-1 axis
stretches to the other, anything else raises ValueError. -/
def bdim (a b : Nat) : Except PyErr Nat :=
  if a = b then Except.ok a
  else if a = 1 then Except.ok b
  else if b = 1 then Except.ok a
  else Except.error PyErr.valueError

/-- Index into an axis of size `d` under broadcasting: a stretched (size-1)
axis always reads position 0. -/
def bix (d i : Nat) : Nat := if d = 1 then 0 else i

/-- Elementwise binary operation on two rank-4 arrays under numpy
broadcasting. -/
def bop4 (f : K → K → K) (A B : Arr4 K) : Except PyErr (Arr4 K) :=
  match bdim A.n1 B.n1, bdim A.n2 B.n2, bdim A.n3 B.n3, bdim A.n4 B.n4 with
  | Except.ok d1, Except.ok d2, Except.ok d3, Except.ok d4 =>
      Except.ok ⟨d1, d2, d3, d4, fun i j k l =>
        f (A.dat (bix A.n1 i) (bix A.n2 j) (bix A.n3 k) (bix A.n4 l))
          (B.dat (bix B.n1 i) (bix B.n2 j) (bix B.n3 k) (bix B.n4 l))⟩
  | _, _, _, _ => Except.error PyErr.valueError

/-- Scalar times rank-4 array, as in `c * noise`. -/
def smul4 (c : K) (A : Arr4 K) : Arr4 K :=
  ⟨A.n1, A.n2, A.n3, A.n4, fun i j k l => c * A.dat i j k l⟩

/-- Leading `[None, ...]` unsqueeze of a rank-2 array (the batch-of-1
normalization in the loaders). -/
def unsqLead3 (A : Arr2 K) : Arr3 K :=
  ⟨1, A.n1, A.n2, fun _ k l => A.dat k l⟩

/-- Leading `[None, ...]` unsqueeze of a rank-3 array, also `masks[None,...]`
in the Cartesian non-inverse-crime branch. -/
def unsqLead4 (A : Arr3 K) : Arr4 K :=
  ⟨1, A.n1, A.n2, A.n3, fun _ j k l => A.dat j k l⟩

/-- Axis-1 unsqueeze `a[:, None, :, :]` of a rank-3 array, as used for
`imgs[:,None,:,:]` and `masks[:,None,:,:]` in the inverse-crime branch. -/
def unsqAx1 (A : Arr3 K) : Arr4 K :=
  ⟨A.n1, 1, A.n2, A.n3, fun i _ k l => A.dat i k l⟩

/-- Squeeze of the leading axis of a rank-3 array (`x.squeeze(0)`). -/
def sq3 (A : Arr3 K) : Arr2 K :=
  ⟨A.n2, A.n3, fun k l => A.dat 0 k l⟩

/-- Squeeze of the leading axis of a rank-4 array (`x.squeeze(0)`). -/
def sq4 (A : Arr4 K) : Arr3 K :=
  ⟨A.n2, A.n3, A.n4, fun j k l => A.dat 0 j k l⟩

/-- Application of a 2D spatial transform over the trailing two axes of a
rank-4 array, i.e. per sample and per channel, as the source's `fft2uc` and
`ifft2uc` act on `[N, C, nx, ny]` arrays.  The transform is assumed
shape-preserving (the source's transforms are unitary FFTs). -/
def map24 (F : (Nat → Nat → K) → Nat → Nat → K) (A : Arr4 K) : Arr4 K :=
  ⟨A.n1, A.n2, A.n3, A.n4, fun n c => F (A.dat n c)⟩

/-- Elementwise complex conjugate of a rank-4 array (`np.conj(maps)`). -/
def conj4 (A : Arr4 K) : Arr4 K :=
  ⟨A.n1, A.n2, A.n3, A.n4, fun i j k l => star (A.dat i j k l)⟩

/-- Sum over the channel axis (`np.sum(..., axis=1)`). -/
def sumAxis1 (A : Arr4 K) : Arr3 K :=
  ⟨A.n1, A.n3, A.n4, fun n x y => Finset.sum (Finset.range A.n2) (fun c => A.dat n c x y)⟩

/-- Modelled from the spec: `fftmod` of `deepinpy.utils.utils` is not under
`src/`; the spec describes it as a deterministic phase/frequency-shift
modulation aligning FFT conventions.  It is modelled as multiplying the entry
at spatial position `(x, y)` by the unimodular alternating sign
`(-1)^(x+y+1)`, a half-grid frequency shift, applied over the trailing two
axes of a rank-4 array. -/
def fftmod4 (A : Arr4 K) : Arr4 K :=
  ⟨A.n1, A.n2, A.n3, A.n4, fun n c x y => (-1 : K) ^ (x + y + 1) * A.dat n c x y⟩

/-- Modelled from the spec: the numeric/library environment of the pipeline
that is not under `src/`.  `fft2uc` / `ifft2uc` (the unitary centered 2D
transform of `deepinpy.utils.utils` and its inverse) are arbitrary 2D-slice
transforms; `nufft` is the external `mrinufft` operator produced by
`get_operator("gpunufft")(masks[0], maps.shape[-2:], n_coils=maps.shape[1])`,
taking the trajectory slice, the two spatial sizes, the coil count and the
per-channel image; its result is modelled directly at rank 3 (the source's
`out[None]` promotion of a rank-2 result is absorbed into it).  `sqrt2inv`
stands for the scalar `1 / np.sqrt(2)`. -/
structure Env (K : Type) where
  fft2uc : (Nat → Nat → K) → Nat → Nat → K
  ifft2uc : (Nat → Nat → K) → Nat → Nat → K
  nufft : (Nat → Nat → K) → Nat → Nat → Nat → Arr4 K → Arr3 K
  sqrt2inv : K

/-- Constructor-time configuration of `MultiChannelMRIDataset` (the fields the
active code path reads). -/
structure Cfg (K : Type) where
  stdev : K
  adjoint_data : Bool
  fully_sampled : Bool
  scale_data : Bool
  inverse_crime : Bool
  noncart : Bool
  data_idx : Option Nat

/-- Result of `_sim_data` before the dataset-level squeeze: rank 3 after the
adjoint coil-combination or in non-Cartesian mode, rank 4 otherwise. -/
inductive SimOut (K : Type) where
  | rk3 : Arr3 K → SimOut K
  | rk4 : Arr4 K → SimOut K

/-- Core of the Cartesian branch of `_sim_data` (dataset.py lines 150-161),
producing the simulated measurement before the output transform of lines
162-165.  `noise?` is the noise loaded from the store (`None` in Python when
the store has none), `fresh` is the `np.random.randn` draw used in that case
(given the shape of `maps`, line 153), and `ksp?` is the optional raw k-space
argument. -/
def simCartCore (env : Env K) (cfg : Cfg K) (imgs : Arr3 K) (maps : Arr4 K)
    (masks : Arr3 K) (noise? : Option (Arr4 K)) (fresh : Nat → Nat → Nat → Nat → K)
    (ksp? : Option (Arr4 K)) : Except PyErr (Arr4 K) :=
  let noise : Arr4 K :=
    match noise? with
    | some n => n
    | none => ⟨maps.n1, maps.n2, maps.n3, maps.n4, fresh⟩
  let scale : K := env.sqrt2inv * cfg.stdev
  if cfg.inverse_crime && ksp?.isNone then
    -- line 156: masks[:,None,:,:] * (fft2uc(imgs[:,None,:,:] * maps) + 1/sqrt(2) * stdev * noise)
    match bop4 (fun a b => a * b) (unsqAx1 imgs) maps with
    | Except.error e => Except.error e
    | Except.ok cw =>
      match bop4 (fun a b => a + b) (map24 env.fft2uc cw) (smul4 scale noise) with
      | Except.error e => Except.error e
      | Except.ok s => bop4 (fun a b => a * b) (unsqAx1 masks) s
  else if cfg.noncart then
    -- line 158-159 is dead in the source: it sits inside the Cartesian else
    -- branch yet tests self.noncart, and the name `out` is unbound there
    Except.error PyErr.unboundLocal
  else
    -- line 161: masks[None,...] * (ksp + 1/sqrt(2) * stdev * noise)
    match ksp? with
    | none => Except.error PyErr.typeError
    | some ksp =>
      match bop4 (fun a b => a + b) ksp (smul4 scale noise) with
      | Except.error e => Except.error e
      | Except.ok s => bop4 (fun a b => a * b) (unsqLead4 masks) s

/-- Output transform of `_sim_data` (dataset.py lines 162-165), applied to a
Cartesian rank-4 measurement: frequency-shift modulation when the data is not
returned in the adjoint domain, otherwise the coil combination
`np.sum(np.conj(maps) * ifft2uc(out), axis=1)`. -/
def cartOut (env : Env K) (cfg : Cfg K) (maps : Arr4 K) (out : Arr4 K) :
    Except PyErr (SimOut K) :=
  if !cfg.adjoint_data && !cfg.noncart then
    Except.ok (SimOut.rk4 (fftmod4 out))
  else if cfg.adjoint_data && !cfg.noncart then
    match bop4 (fun a b => a * b) (conj4 maps) (map24 env.ifft2uc out) with
    | Except.error e => Except.error e
    | Except.ok p => Except.ok (SimOut.rk3 (sumAxis1 p))
  else
    Except.ok (SimOut.rk4 out)

/-- `_sim_data` (dataset.py lines 140-166).  In non-Cartesian mode (lines
141-149) the non-uniform operator built from `masks[0]`, `maps.shape[-2:]` and
`n_coils = maps.shape[1]` is applied to `ifft2uc(ksp)` and the result is
returned as-is: both output-transform conditions of lines 162-165 test
`not self.noncart` and are skipped.  Note that the noise drawn at lines
148-149 when the store has none is never used by any reachable statement, so
it does not appear in the result.  In Cartesian mode the core measurement of
lines 150-161 is produced and then transformed by lines 162-165. -/
def simData (env : Env K) (cfg : Cfg K) (imgs : Arr3 K) (maps : Arr4 K)
    (masks : Arr3 K) (noise? : Option (Arr4 K)) (fresh : Nat → Nat → Nat → Nat → K)
    (ksp? : Option (Arr4 K)) : Except PyErr (SimOut K) :=
  if cfg.noncart then
    match ksp? with
    | none => Except.error PyErr.typeError
    | some ksp =>
      Except.ok (SimOut.rk3
        (env.nufft (masks.dat 0) maps.n3 maps.n4 maps.n2 (map24 env.ifft2uc ksp)))
  else
    match simCartCore env cfg imgs maps masks noise? fresh ksp? with
    | Except.error e => Except.error e
    | Except.ok out => cartOut env cfg maps out

/-- Store A (the `data_file` h5 store), modelled at the documented layout:
`imgs` is `[N, Nx, Ny]` and `maps` / `ksp` are `[N, C, Nx, Ny]`, so the
per-index slices read by the loaders have rank 2 and 3.  `ksp` is optional
(missing dataset means KeyError on access). -/
structure StoreA (K : Type) where
  imgs : Nat → Arr2 K
  maps : Nat → Arr3 K
  ksp : Option (Nat → Arr3 K)

/-- Store B (the `masks_file` h5 store): a shared `masks` dataset (optional),
per-index trajectory datasets `mask_traj_<idx>` (each possibly absent),
`loss_masks`, and an optional `noise` dataset of the shape of `maps`. -/
structure StoreB (K : Type) where
  masks : Option (Nat → Arr2 K)
  mask_traj : Nat → Option (Arr2 K)
  loss_masks : Nat → Arr2 K
  noise : Option (Nat → Arr3 K)

/-- Raw arrays for one index, after the batch-of-1 normalization of the
loaders.  `ksp` is `none` when the image-domain loader was used. -/
structure Raw (K : Type) where
  imgs : Arr3 K
  maps : Arr4 K
  masks : Arr3 K
  ksp : Option (Arr4 K)
  noise : Option (Arr4 K)
  loss_masks : Arr3 K

/-- Image-domain loader `load_data` (dataset.py lines 169-187): reads `imgs`,
`maps` from store A and `masks`, `loss_masks`, optional `noise` from store B;
a missing `masks` dataset raises KeyError.  Under the documented store layout
the retrieved `masks` slice has rank 2, so the batch-of-1 normalization of
lines 182-186 (a leading `[None,...]` on every array) always applies. -/
def load_data (A : StoreA K) (B : StoreB K) (idx : Nat) : Except PyErr (Raw K) :=
  match B.masks with
  | none => Except.error PyErr.keyError
  | some mk =>
    Except.ok ⟨unsqLead3 (A.imgs idx), unsqLead4 (A.maps idx), unsqLead3 (mk idx),
      none, Option.map (fun nf => unsqLead4 (nf idx)) B.noise, unsqLead3 (B.loss_masks idx)⟩

/-- K-space loader `load_data_ksp` (dataset.py lines 189-211): additionally
reads `ksp` from store A (KeyError when absent); the mask lookup first tries
the shared `masks` dataset and falls back to `mask_traj_<idx>` (KeyError when
that is also absent).  Batch-of-1 normalization as in `load_data`. -/
def load_data_ksp (A : StoreA K) (B : StoreB K) (idx : Nat) : Except PyErr (Raw K) :=
  match A.ksp with
  | none => Except.error PyErr.keyError
  | some kf =>
    match B.masks with
    | some mk =>
      Except.ok ⟨unsqLead3 (A.imgs idx), unsqLead4 (A.maps idx), unsqLead3 (mk idx),
        some (unsqLead4 (kf idx)), Option.map (fun nf => unsqLead4 (nf idx)) B.noise,
        unsqLead3 (B.loss_masks idx)⟩
    | none =>
      match B.mask_traj idx with
      | none => Except.error PyErr.keyError
      | some tr =>
        Except.ok ⟨unsqLead3 (A.imgs idx), unsqLead4 (A.maps idx), unsqLead3 tr,
          some (unsqLead4 (kf idx)), Option.map (fun nf => unsqLead4 (nf idx)) B.noise,
          unsqLead3 (B.loss_masks idx)⟩

/-- Loader dispatch of `_load_data` (dataset.py lines 115-119): the
image-domain loader under inverse-crime, the k-space loader otherwise. -/
def rawLoad (cfg : Cfg K) (A : StoreA K) (B : StoreB K) (idx : Nat) :
    Except PyErr (Raw K) :=
  if cfg.inverse_crime then load_data A B idx else load_data_ksp A B idx

/-- Mask override of dataset.py lines 127-128: `np.ones(masks.shape)` when
`fully_sampled` is configured. -/
def maskSel (cfg : Cfg K) (m : Arr3 K) : Arr3 K :=
  if cfg.fully_sampled then ⟨m.n1, m.n2, m.n3, fun _ _ _ => 1⟩ else m

/-- Coil-map postprocessing of dataset.py lines 136-137: `maps = fftmod(maps)`
unless non-Cartesian, applied after `_sim_data` has run. -/
def mapsSel (cfg : Cfg K) (m : Arr4 K) : Arr4 K :=
  if !cfg.noncart then fftmod4 m else m

/-- K-space argument passed to `_sim_data` by `_load_data`: absent in the
inverse-crime branch (line 132), the loaded k-space otherwise (line 134). -/
def kspArg (cfg : Cfg K) (d : Raw K) : Option (Arr4 K) :=
  if cfg.inverse_crime then none else d.ksp

/-- Result tuple of `_load_data`. -/
structure LoadOut (K : Type) where
  imgs : Arr3 K
  maps : Arr4 K
  masks : Arr3 K
  out : SimOut K
  loss_masks : Arr3 K

/-- `_load_data` (dataset.py lines 114-138): load raw arrays (mode chosen by
`inverse_crime`); the data-scaling branch of lines 120-125 immediately fails
its own `assert not self.scale_data` before any scaling; override the mask
when `fully_sampled`; under inverse-crime assert `not self.noncart` before
simulating; simulate the measurement; finally modulate the returned coil maps
by `fftmod` unless non-Cartesian. -/
def loadData (env : Env K) (cfg : Cfg K) (A : StoreA K) (B : StoreB K)
    (fresh : Nat → Nat → Nat → Nat → K) (idx : Nat) : Except PyErr (LoadOut K) :=
  match rawLoad cfg A B idx with
  | Except.error e => Except.error e
  | Except.ok d =>
    if cfg.scale_data then Except.error (PyErr.assertionError "SEE FIXME")
    else if cfg.inverse_crime && cfg.noncart then
      Except.error (PyErr.assertionError "FIXME: forward sim of NUFFT")
    else
      match simData env cfg d.imgs d.maps (maskSel cfg d.masks) d.noise fresh (kspArg cfg d) with
      | Except.error e => Except.error e
      | Except.ok out =>
        Except.ok ⟨d.imgs, mapsSel cfg d.maps, maskSel cfg d.masks, out, d.loss_masks⟩

/-- Array dtype tags set by the `.astype` coercions of `__getitem__`. -/
inductive DType where
  | complex64 : DType
  | float32 : DType
deriving DecidableEq

/-- Sample arrays after the squeeze of `__getitem__`, of rank 2, 3 or 4. -/
inductive NDArr (K : Type) where
  | rk2 : Arr2 K → NDArr K
  | rk3 : Arr3 K → NDArr K
  | rk4 : Arr4 K → NDArr K

/-- Dtype coercion `x.astype(dtype)`: in the exact-arithmetic model the values
are unchanged and the dtype tag records the coercion. -/
def astype (d : DType) (a : NDArr K) : DType × NDArr K := (d, a)

/-- Leading-axis squeeze of the simulated output. -/
def squeezeOut : SimOut K → NDArr K
  | SimOut.rk3 A => NDArr.rk2 (sq3 A)
  | SimOut.rk4 A => NDArr.rk3 (sq4 A)

/-- Embedding of the simulated output without a squeeze. -/
def toND : SimOut K → NDArr K
  | SimOut.rk3 A => NDArr.rk3 A
  | SimOut.rk4 A => NDArr.rk4 A

/-- Sample dict returned by `__getitem__`, each field with its dtype tag. -/
structure Sample (K : Type) where
  imgs : DType × NDArr K
  maps : DType × NDArr K
  masks : DType × NDArr K
  loss_masks : DType × NDArr K
  out : DType × NDArr K

/-- Sample packaging when the leading dimension is 1 (dataset.py lines
97-110): squeeze every array, then coerce dtypes. -/
def packSq (r : LoadOut K) : Sample K :=
  ⟨astype DType.complex64 (NDArr.rk2 (sq3 r.imgs)),
   astype DType.complex64 (NDArr.rk3 (sq4 r.maps)),
   astype DType.float32 (NDArr.rk2 (sq3 r.masks)),
   astype DType.float32 (NDArr.rk2 (sq3 r.loss_masks)),
   astype DType.complex64 (squeezeOut r.out)⟩

/-- Sample packaging without the squeeze (leading dimension not 1). -/
def packNoSq (r : LoadOut K) : Sample K :=
  ⟨astype DType.complex64 (NDArr.rk3 r.imgs),
   astype DType.complex64 (NDArr.rk4 r.maps),
   astype DType.float32 (NDArr.rk3 r.masks),
   astype DType.float32 (NDArr.rk3 r.loss_masks),
   astype DType.complex64 (toND r.out)⟩

/-- Effective sample index of `__getitem__` (dataset.py lines 83-84): a
configured `data_idx` overrides the passed index. -/
def idxE (cfg : Cfg K) (idx : Nat) : Nat :=
  match cfg.data_idx with
  | some j => j
  | none => idx

/-- `__getitem__` (dataset.py lines 81-112): resolve the index, run
`_load_data`, squeeze the leading dimension when it is 1, coerce dtypes and
return `(idx, dict)`. -/
def getitem (env : Env K) (cfg : Cfg K) (A : StoreA K) (B : StoreB K)
    (fresh : Nat → Nat → Nat → Nat → K) (idx : Nat) :
    Except PyErr (Nat × Sample K) :=
  match loadData env cfg A B fresh (idxE cfg idx) with
  | Except.error e => Except.error e
  | Except.ok r =>
    if r.imgs.n1 = 1 then Except.ok (idxE cfg idx, packSq r)
    else Except.ok (idxE cfg idx, packNoSq r)

/-- Truth value of an `Except` being a success. -/
def isOkE {α : Type} (x : Except PyErr α) : Bool :=
  match x with
  | Except.ok _ => true
  | Except.error _ => false

/-- Entry accessor for a successful rank-4 result (junk 0 on error). -/
def okDat4 (x : Except PyErr (Arr4 K)) : Nat → Nat → Nat → Nat → K :=
  fun i j k l =>
    match x with
    | Except.ok A => A.dat i j k l
    | Except.error _ => 0

/-- Shape accessor for a successful rank-4 result (junk zeros on error). -/
def okShape4 (x : Except PyErr (Arr4 K)) : Nat × Nat × Nat × Nat :=
  match x with
  | Except.ok A => (A.n1, A.n2, A.n3, A.n4)
  | Except.error _ => (0, 0, 0, 0)

/-- Locality of a 2D transform to the `nx × ny` grid: the transform reads its
input only at in-range positions and is observed only at in-range positions.
The source's unitary centered FFT on an `nx × ny` array has this property;
the total-function array model needs it stated explicitly. -/
def GridLocal (nx ny : Nat) (F : (Nat → Nat → K) → Nat → Nat → K) : Prop :=
  ∀ g g' : Nat → Nat → K, (∀ a b, a < nx → b < ny → g a b = g' a b) →
    ∀ x y, x < nx → y < ny → F g x y = F g' x y

theorem bdim_self (a : Nat) : bdim a a = Except.ok a := by
  simp [bdim]

theorem bdim_one_left (b : Nat) : bdim 1 b = Except.ok b := by
  unfold bdim
  by_cases h : (1 : Nat) = b
  · simp [h]
  · simp [h]

theorem bix_of_lt {i d : Nat} (h : i < d) : bix d i = i := by
  unfold bix
  by_cases hd : d = 1
  · subst hd
    simp
    omega
  · simp [hd]

theorem bop4_ok (f : K → K → K) (A B : Arr4 K) (d1 d2 d3 d4 : Nat)
    (h1 : bdim A.n1 B.n1 = Except.ok d1) (h2 : bdim A.n2 B.n2 = Except.ok d2)
    (h3 : bdim A.n3 B.n3 = Except.ok d3) (h4 : bdim A.n4 B.n4 = Except.ok d4) :
    bop4 f A B = Except.ok ⟨d1, d2, d3, d4, fun i j k l =>
      f (A.dat (bix A.n1 i) (bix A.n2 j) (bix A.n3 k) (bix A.n4 l))
        (B.dat (bix B.n1 i) (bix B.n2 j) (bix B.n3 k) (bix B.n4 l))⟩ := by
  unfold bop4
  rw [h1, h2, h3, h4]

/-
Concrete test data used by the witnesses: one sample, one coil, a 1 × 1 grid,
integer-valued arrays (the scalar ring instantiated at ℤ), and an environment
whose 2D transforms are the identity and whose non-uniform operator reads the
first sample of the per-channel image.
-/

def im0 : Arr2 ℤ := ⟨1, 1, fun _ _ => 2⟩

def mp0 : Arr3 ℤ := ⟨1, 1, 1, fun _ _ _ => 3⟩

def kp0 : Arr3 ℤ := ⟨1, 1, 1, fun _ _ _ => 7⟩

def mk0 : Arr2 ℤ := ⟨1, 1, fun _ _ => 1⟩

def lm0 : Arr2 ℤ := ⟨1, 1, fun _ _ => 1⟩

def nz0 : Arr3 ℤ := ⟨1, 1, 1, fun _ _ _ => 1000⟩

def storeA0 : StoreA ℤ := ⟨fun _ => im0, fun _ => mp0, some (fun _ => kp0)⟩

def storeB0 : StoreB ℤ := ⟨some (fun _ => mk0), fun _ => none, fun _ => lm0, none⟩

def storeBn : StoreB ℤ := ⟨some (fun _ => mk0), fun _ => none, fun _ => lm0, some (fun _ => nz0)⟩

def fr0 : Nat → Nat → Nat → Nat → ℤ := fun _ _ _ _ => 0

def fr1 : Nat → Nat → Nat → Nat → ℤ := fun _ _ _ _ => 5

def envId : Env ℤ :=
  ⟨fun g => g, fun g => g,
   fun _ _ _ _ A => ⟨A.n2, A.n3, A.n4, fun c x y => A.dat 0 c x y⟩, 1⟩

/-- Non-Cartesian configuration with a nonzero noise level. -/
def cfgNC : Cfg ℤ := ⟨5, false, false, false, false, true, none⟩

/-- Claim C1: the claim states that in non-Cartesian mode the simulated
measurement is the non-uniform Fourier operator (built from the mask
trajectory) applied to the per-channel inverse transform of the input
k-space, PLUS noise scaled by `stdev / sqrt(2)`.  The code contradicts the
noise part: the returned value is exactly the operator output, independent of
the noise, of `stdev` and of the random draw — the noise generated at lines
148-149 is never used, because the addition at line 159 sits inside the
Cartesian else-branch guarded by `self.noncart` and is unreachable. -/
theorem C1_noncart_no_noise_added (env : Env K) (cfg : Cfg K) (imgs : Arr3 K)
    (maps : Arr4 K) (masks : Arr3 K) (noise? : Option (Arr4 K))
    (fresh : Nat → Nat → Nat → Nat → K) (ksp : Arr4 K)
    (hn : cfg.noncart = true) :
    simData env cfg imgs maps masks noise? fresh (some ksp) =
      Except.ok (SimOut.rk3
        (env.nufft (masks.dat 0) maps.n3 maps.n4 maps.n2 (map24 env.ifft2uc ksp))) := by
  simp [simData, hn]

/-- Witness for C1 at the concrete fixture: `stdev = 5` and a stored noise
array of constant value 1000, yet the simulated output is the noise-free
operator value. -/
theorem C1_noncart_no_noise_added_witness :
    simData envId cfgNC (unsqLead3 im0) (unsqLead4 mp0) (unsqLead3 mk0)
        (some (unsqLead4 nz0)) fr0 (some (unsqLead4 kp0)) =
      Except.ok (SimOut.rk3
        (envId.nufft ((unsqLead3 mk0).dat 0) (unsqLead4 mp0).n3 (unsqLead4 mp0).n4
          (unsqLead4 mp0).n2 (map24 envId.ifft2uc (unsqLead4 kp0)))) :=
  C1_noncart_no_noise_added envId cfgNC (unsqLead3 im0) (unsqLead4 mp0)
    (unsqLead3 mk0) (some (unsqLead4 nz0)) fr0 (unsqLead4 kp0) rfl

/-- Trajectory fixture whose samples are all zero. -/
def mtrajA : Arr3 ℤ := ⟨2, 1, 1, fun _ _ _ => 0⟩

/-- Trajectory fixture that agrees with `mtrajA` on sample 0 but differs on
sample 1. -/
def mtrajB : Arr3 ℤ := ⟨2, 1, 1, fun n _ _ => (n : ℤ)⟩

/-- Claim C10: in non-Cartesian mode the simulated measurement depends on the
masks only through `masks[0]` (and on `maps` through its coil count and
spatial shape): two mask stacks with the same first sample give identical
simulation results, whatever the other samples' masks are. -/
theorem C10_nufft_uses_first_mask_only (env : Env K) (cfg : Cfg K)
    (imgs : Arr3 K) (maps : Arr4 K) (m1 m2 : Arr3 K) (noise? : Option (Arr4 K))
    (fresh : Nat → Nat → Nat → Nat → K) (ksp : Arr4 K)
    (hn : cfg.noncart = true) (hm : m1.dat 0 = m2.dat 0) :
    simData env cfg imgs maps m1 noise? fresh (some ksp) =
      simData env cfg imgs maps m2 noise? fresh (some ksp) := by
  simp [simData, hn, hm]

/-- Witness for C10: the two concrete trajectory stacks differ at sample 1 yet
produce the same simulated measurement. -/
theorem C10_nufft_uses_first_mask_only_witness :
    simData envId cfgNC (unsqLead3 im0) (unsqLead4 mp0) mtrajA
        none fr0 (some (unsqLead4 kp0)) =
      simData envId cfgNC (unsqLead3 im0) (unsqLead4 mp0) mtrajB
        none fr0 (some (unsqLead4 kp0)) :=
  C10_nufft_uses_first_mask_only envId cfgNC (unsqLead3 im0) (unsqLead4 mp0)
    mtrajA mtrajB none fr0 (unsqLead4 kp0) rfl
    (by funext x y; simp [mtrajA, mtrajB])

/-- Helper: under the non-Cartesian inverse-crime combination, `_load_data`
never succeeds. -/
theorem loadData_noncart_ic_not_ok (env : Env K) (cfg : Cfg K) (A : StoreA K)
    (B : StoreB K) (fresh : Nat → Nat → Nat → Nat → K) (idx : Nat)
    (hn : cfg.noncart = true) (hic : cfg.inverse_crime = true) :
    isOkE (loadData env cfg A B fresh idx) = false := by
  unfold loadData
  cases hrl : rawLoad cfg A B idx with
  | error e => rfl
  | ok d =>
    by_cases hs : cfg.scale_data = true
    · simp [hs, isOkE]
    · have hs' : cfg.scale_data = false := by
        revert hs; cases cfg.scale_data <;> simp
      simp [hs', hic, hn, isOkE]

/-- Claim C4: with `noncart = true` and `inverse_crime = true`, no sample
access ever returns a sample, and — whenever the raw load itself succeeds and
the earlier data-scaling assertion is not triggered — the access fails with
exactly the `assert not self.noncart` assertion of dataset.py line 131,
before any simulated output is produced. -/
theorem C4_noncart_inverse_crime_fails (env : Env K) (cfg : Cfg K)
    (A : StoreA K) (B : StoreB K) (fresh : Nat → Nat → Nat → Nat → K)
    (idx : Nat) (d : Raw K)
    (hn : cfg.noncart = true) (hic : cfg.inverse_crime = true) :
    isOkE (getitem env cfg A B fresh idx) = false ∧
      (cfg.scale_data = false → rawLoad cfg A B (idxE cfg idx) = Except.ok d →
        getitem env cfg A B fresh idx =
          Except.error (PyErr.assertionError "FIXME: forward sim of NUFFT")) := by
  have hld := loadData_noncart_ic_not_ok env cfg A B fresh (idxE cfg idx) hn hic
  constructor
  · unfold getitem
    cases hle : loadData env cfg A B fresh (idxE cfg idx) with
    | error e => rfl
    | ok r =>
      rw [hle] at hld
      simp [isOkE] at hld
  · intro hs hload
    unfold getitem loadData
    rw [hload]
    simp [hs, hic, hn]

/-- Non-Cartesian inverse-crime configuration. -/
def cfgNCIC : Cfg ℤ := ⟨0, false, false, false, true, true, none⟩

/-- Accessor giving the raw load result of a successful load (junk on error). -/
def okRaw (x : Except PyErr (Raw ℤ)) : Raw ℤ :=
  match x with
  | Except.ok d => d
  | Except.error _ =>
    ⟨⟨0, 0, 0, fun _ _ _ => 0⟩, ⟨0, 0, 0, 0, fun _ _ _ _ => 0⟩,
     ⟨0, 0, 0, fun _ _ _ => 0⟩, none, none, ⟨0, 0, 0, fun _ _ _ => 0⟩⟩

/-- Witness for C4: at the concrete store the access fails with the
non-Cartesian assertion and returns no sample. -/
theorem C4_noncart_inverse_crime_fails_witness :
    isOkE (getitem envId cfgNCIC storeA0 storeB0 fr0 0) = false ∧
      (cfgNCIC.scale_data = false →
        rawLoad cfgNCIC storeA0 storeB0 (idxE cfgNCIC 0) =
          Except.ok (okRaw (rawLoad cfgNCIC storeA0 storeB0 (idxE cfgNCIC 0))) →
        getitem envId cfgNCIC storeA0 storeB0 fr0 0 =
          Except.error (PyErr.assertionError "FIXME: forward sim of NUFFT")) :=
  C4_noncart_inverse_crime_fails envId cfgNCIC storeA0 storeB0 fr0 0
    (okRaw (rawLoad cfgNCIC storeA0 storeB0 (idxE cfgNCIC 0))) rfl rfl

/-- Claim C9: with `scale_data = true` every access fails before any scaling
is applied: no sample is ever returned, and whenever the raw load succeeds
the failure is exactly the guarding `assert not self.scale_data` of
dataset.py line 122 (which precedes the scaling statements of lines
123-125). -/
theorem C9_scale_data_asserts (env : Env K) (cfg : Cfg K) (A : StoreA K)
    (B : StoreB K) (fresh : Nat → Nat → Nat → Nat → K) (idx : Nat) (d : Raw K)
    (hs : cfg.scale_data = true) :
    isOkE (getitem env cfg A B fresh idx) = false ∧
      (rawLoad cfg A B (idxE cfg idx) = Except.ok d →
        getitem env cfg A B fresh idx =
          Except.error (PyErr.assertionError "SEE FIXME")) := by
  constructor
  · unfold getitem loadData
    cases hrl : rawLoad cfg A B (idxE cfg idx) with
    | error e => rfl
    | ok d' => simp [hs, isOkE]
  · intro hload
    unfold getitem loadData
    rw [hload]
    simp [hs]

/-- Configuration with data scaling requested. -/
def cfgSc : Cfg ℤ := ⟨0, false, false, true, false, false, none⟩

/-- Witness for C9 at the concrete store. -/
theorem C9_scale_data_asserts_witness :
    isOkE (getitem envId cfgSc storeA0 storeB0 fr0 0) = false ∧
      (rawLoad cfgSc storeA0 storeB0 (idxE cfgSc 0) =
          Except.ok (okRaw (rawLoad cfgSc storeA0 storeB0 (idxE cfgSc 0))) →
        getitem envId cfgSc storeA0 storeB0 fr0 0 =
          Except.error (PyErr.assertionError "SEE FIXME")) :=
  C9_scale_data_asserts envId cfgSc storeA0 storeB0 fr0 0
    (okRaw (rawLoad cfgSc storeA0 storeB0 (idxE cfgSc 0))) rfl

/-
Fixtures for the Cartesian non-inverse-crime branch with a batch of N = 2
samples: per-sample masks with distinct values (sample 0 has mask 0, sample 1
has mask 1), constant k-space 1, zero noise scale.
-/

def im2 : Arr3 ℤ := ⟨2, 1, 1, fun _ _ _ => 0⟩

def mk2 : Arr3 ℤ := ⟨2, 1, 1, fun n _ _ => (n : ℤ)⟩

def mp2 : Arr4 ℤ := ⟨2, 2, 1, 1, fun _ _ _ _ => 1⟩

def kp2 : Arr4 ℤ := ⟨2, 2, 1, 1, fun _ _ _ _ => 1⟩

def nz2 : Arr4 ℤ := ⟨2, 2, 1, 1, fun _ _ _ _ => 0⟩

def mp2w : Arr4 ℤ := ⟨2, 3, 1, 1, fun _ _ _ _ => 1⟩

def kp2w : Arr4 ℤ := ⟨2, 3, 1, 1, fun _ _ _ _ => 1⟩

def nz2w : Arr4 ℤ := ⟨2, 3, 1, 1, fun _ _ _ _ => 0⟩

/-- Cartesian non-inverse-crime configuration with zero noise level. -/
def cfgKsp : Cfg ℤ := ⟨0, false, false, false, false, false, none⟩

/-- Claim C2: the claim states that in Cartesian non-inverse-crime mode, for
every batch size N ≥ 1, channel c of sample n of `ksp + scale * noise` is
multiplied by sample n's mask.  The code computes
`masks[None,...] * (ksp + scale * noise)` (line 161), which under numpy
broadcasting multiplies channel c of sample n by sample *c*'s mask — at the
concrete input below the entry for sample 1, channel 0 is 0 where the claim
demands 1 — and raises a broadcast ValueError altogether when the coil count
differs from N (both > 1).  The sibling inverse-crime branch (line 156) uses
`masks[:,None,:,:]`, showing the intended alignment. -/
theorem C2_cart_ksp_mask_misaligned :
    okDat4 (simCartCore envId cfgKsp im2 mp2 mk2 (some nz2) fr0 (some kp2)) 1 0 0 0 = 0 ∧
    mk2.dat 1 0 0 * (kp2.dat 1 0 0 0 + envId.sqrt2inv * cfgKsp.stdev * nz2.dat 1 0 0 0) = 1 ∧
    ¬((0 : ℤ) = 1) ∧
    isOkE (simCartCore envId cfgKsp im2 mp2w mk2 (some nz2w) fr0 (some kp2w)) = false := by
  refine ⟨?_, ?_, by decide, ?_⟩
  · rfl
  · decide
  · rfl

/-- Claim C5: in Cartesian inverse-crime mode (no stored k-space), the
simulated measurement before the output transform succeeds for matching
shapes and equals, entrywise at every in-range position,
`mask ⊙ (fft2uc(imgs ⊙ maps) + (stdev / sqrt 2) * noise)`: sample n's mask is
broadcast over that sample's channels and the transform is applied per sample
and per channel. -/
theorem C5_inverse_crime_formula (env : Env K) (cfg : Cfg K) (N C nx ny : Nat)
    (im mk : Nat → Nat → Nat → K) (mp nz : Nat → Nat → Nat → Nat → K)
    (fresh : Nat → Nat → Nat → Nat → K)
    (hic : cfg.inverse_crime = true) (hF : GridLocal nx ny env.fft2uc)
    (n c x y : Nat) (hn : n < N) (hc : c < C) (hx : x < nx) (hy : y < ny) :
    isOkE (simCartCore env cfg ⟨N, nx, ny, im⟩ ⟨N, C, nx, ny, mp⟩ ⟨N, nx, ny, mk⟩
        (some ⟨N, C, nx, ny, nz⟩) fresh none) = true ∧
    okShape4 (simCartCore env cfg ⟨N, nx, ny, im⟩ ⟨N, C, nx, ny, mp⟩ ⟨N, nx, ny, mk⟩
        (some ⟨N, C, nx, ny, nz⟩) fresh none) = (N, C, nx, ny) ∧
    okDat4 (simCartCore env cfg ⟨N, nx, ny, im⟩ ⟨N, C, nx, ny, mp⟩ ⟨N, nx, ny, mk⟩
        (some ⟨N, C, nx, ny, nz⟩) fresh none) n c x y =
      mk n x y * (env.fft2uc (fun a b => im n a b * mp n c a b) x y +
        env.sqrt2inv * cfg.stdev * nz n c x y) := by
  refine ⟨?_, ?_, ?_⟩
  · simp only [simCartCore, unsqAx1, map24, smul4, bop4, bdim_self, bdim_one_left, hic,
      Option.isNone_none, Bool.and_true, if_true, isOkE]
  · simp only [simCartCore, unsqAx1, map24, smul4, bop4, bdim_self, bdim_one_left, hic,
      Option.isNone_none, Bool.and_true, if_true, okShape4]
  · simp only [simCartCore, unsqAx1, map24, smul4, bop4, bdim_self, bdim_one_left, hic,
      Option.isNone_none, Bool.and_true, if_true, okDat4]
    simp only [bix_of_lt hn, bix_of_lt hc, bix_of_lt hx, bix_of_lt hy]
    have hslice : env.fft2uc (fun k l => im n (bix nx k) (bix ny l) *
        mp n c (bix nx k) (bix ny l)) x y =
        env.fft2uc (fun a b => im n a b * mp n c a b) x y := by
      refine hF _ _ (fun a b ha hb => ?_) x y hx hy
      rw [bix_of_lt ha, bix_of_lt hb]
    rw [hslice]

def im5 : Nat → Nat → Nat → ℤ := fun _ _ _ => 2

def mp5 : Nat → Nat → Nat → Nat → ℤ := fun _ _ _ _ => 3

def mk5 : Nat → Nat → Nat → ℤ := fun _ _ _ => 1

def nz5 : Nat → Nat → Nat → Nat → ℤ := fun _ _ _ _ => 4

/-- Cartesian inverse-crime configuration with unit noise level. -/
def cfg5 : Cfg ℤ := ⟨1, false, false, false, true, false, none⟩

/-- Witness for C5 at a concrete 1-sample, 1-coil, 1 × 1 instance. -/
theorem C5_inverse_crime_formula_witness :
    isOkE (simCartCore envId cfg5 ⟨1, 1, 1, im5⟩ ⟨1, 1, 1, 1, mp5⟩ ⟨1, 1, 1, mk5⟩
        (some ⟨1, 1, 1, 1, nz5⟩) fr0 none) = true ∧
    okShape4 (simCartCore envId cfg5 ⟨1, 1, 1, im5⟩ ⟨1, 1, 1, 1, mp5⟩ ⟨1, 1, 1, mk5⟩
        (some ⟨1, 1, 1, 1, nz5⟩) fr0 none) = (1, 1, 1, 1) ∧
    okDat4 (simCartCore envId cfg5 ⟨1, 1, 1, im5⟩ ⟨1, 1, 1, 1, mp5⟩ ⟨1, 1, 1, mk5⟩
        (some ⟨1, 1, 1, 1, nz5⟩) fr0 none) 0 0 0 0 =
      mk5 0 0 0 * (envId.fft2uc (fun a b => im5 0 a b * mp5 0 0 a b) 0 0 +
        envId.sqrt2inv * cfg5.stdev * nz5 0 0 0 0) :=
  C5_inverse_crime_formula envId cfg5 1 1 1 1 im5 mk5 mp5 nz5 fr0 rfl
    (fun _ _ h x y hx hy => h x y hx hy) 0 0 0 0
    (by decide) (by decide) (by decide) (by decide)

/-- Entry accessor for a successful rank-4 simulation output. -/
def sim4 (x : Except PyErr (SimOut ℤ)) : Nat → Nat → Nat → Nat → ℤ :=
  fun n c a b =>
    match x with
    | Except.ok (SimOut.rk4 A) => A.dat n c a b
    | _ => 0

/-- Entry accessor for the rank-4 `out` field of a successful `_load_data`. -/
def lout4 (x : Except PyErr (LoadOut K)) : Nat → Nat → Nat → Nat → K :=
  fun n c a b =>
    match x with
    | Except.ok r =>
      match r.out with
      | SimOut.rk4 A => A.dat n c a b
      | SimOut.rk3 _ => 0
    | Except.error _ => 0

/-- Cartesian inverse-crime configuration with zero noise level and
non-adjoint output. -/
def cfg3 : Cfg ℤ := ⟨0, false, false, false, true, false, none⟩

/-- Counterexample for claim C3 as stated: at the concrete store, the `out`
actually produced by `_load_data` (which calls `_sim_data` on the raw stored
maps) is -6 at the probed entry, while a simulation consuming the
fftmod-modulated maps — what the claim asserts the forward operator uses —
gives 6 there, so the two differ. -/
theorem C3_counterexample :
    lout4 (loadData envId cfg3 storeA0 storeB0 fr0 0) 0 0 0 0 = -6 ∧
    sim4 (simData envId cfg3 (unsqLead3 im0) (fftmod4 (unsqLead4 mp0))
        (unsqLead3 mk0) none fr0 none) 0 0 0 0 = 6 ∧
    lout4 (loadData envId cfg3 storeA0 storeB0 fr0 0) 0 0 0 0 ≠
      sim4 (simData envId cfg3 (unsqLead3 im0) (fftmod4 (unsqLead4 mp0))
        (unsqLead3 mk0) none fr0 none) 0 0 0 0 := by
  refine ⟨?_, ?_, ?_⟩ <;> decide

/-- Claim C3, amended: in Cartesian modes the frequency-shift modulation is
applied to the coil maps only AFTER the forward simulation: `_sim_data` (the
simulated measurement, including its adjoint coil-combination) consumes the
raw stored maps, and the modulated maps are only what `_load_data` returns in
the sample's `maps` field. -/
theorem C3_maps_modulated_after_sim (env : Env K) (cfg : Cfg K) (A : StoreA K)
    (B : StoreB K) (fresh : Nat → Nat → Nat → Nat → K) (idx : Nat)
    (d : Raw K) (out : SimOut K)
    (hn : cfg.noncart = false) (hs : cfg.scale_data = false)
    (hload : rawLoad cfg A B idx = Except.ok d)
    (hsim : simData env cfg d.imgs d.maps (maskSel cfg d.masks) d.noise fresh
      (kspArg cfg d) = Except.ok out) :
    loadData env cfg A B fresh idx =
      Except.ok ⟨d.imgs, fftmod4 d.maps, maskSel cfg d.masks, out, d.loss_masks⟩ := by
  unfold loadData
  rw [hload]
  simp [hs, hn, hsim, mapsSel]

/-- Accessor giving the simulated output of a successful run (junk on error). -/
def okSim (x : Except PyErr (SimOut ℤ)) : SimOut ℤ :=
  match x with
  | Except.ok s => s
  | Except.error _ => SimOut.rk4 ⟨0, 0, 0, 0, fun _ _ _ _ => 0⟩

def d3 : Raw ℤ := okRaw (rawLoad cfg3 storeA0 storeB0 0)

def o3 : SimOut ℤ :=
  okSim (simData envId cfg3 d3.imgs d3.maps (maskSel cfg3 d3.masks) d3.noise fr0
    (kspArg cfg3 d3))

/-- Witness for the amended C3 at the concrete store. -/
theorem C3_maps_modulated_after_sim_witness :
    loadData envId cfg3 storeA0 storeB0 fr0 0 =
      Except.ok ⟨d3.imgs, fftmod4 d3.maps, maskSel cfg3 d3.masks, o3, d3.loss_masks⟩ :=
  C3_maps_modulated_after_sim envId cfg3 storeA0 storeB0 fr0 0 d3 o3
    rfl rfl rfl rfl

/-- Inversion of a successful raw load: both loaders batch-normalize, so the
returned `imgs` has leading dimension 1, and the returned noise is the
(optional) store noise slice. -/
theorem rawLoad_ok_fields (cfg : Cfg K) (A : StoreA K) (B : StoreB K)
    (idx : Nat) (d : Raw K) (h : rawLoad cfg A B idx = Except.ok d) :
    d.imgs.n1 = 1 ∧
      d.noise = Option.map (fun nf => unsqLead4 (nf idx)) B.noise := by
  unfold rawLoad load_data load_data_ksp at h
  split at h
  · split at h
    · exact Except.noConfusion h
    · have h2 := Except.ok.inj h
      subst h2
      exact ⟨rfl, rfl⟩
  · split at h
    · exact Except.noConfusion h
    · split at h
      · have h2 := Except.ok.inj h
        subst h2
        exact ⟨rfl, rfl⟩
      · split at h
        · exact Except.noConfusion h
        · have h2 := Except.ok.inj h
          subst h2
          exact ⟨rfl, rfl⟩

/-- Inversion of a successful `_load_data`: the raw load and the simulation
both succeeded, and the result packages the raw arrays with the selected mask
and the post-simulation modulated maps. -/
theorem loadData_ok_inv (env : Env K) (cfg : Cfg K) (A : StoreA K)
    (B : StoreB K) (fresh : Nat → Nat → Nat → Nat → K) (idx : Nat)
    (r : LoadOut K) (h : loadData env cfg A B fresh idx = Except.ok r) :
    ∃ d out, rawLoad cfg A B idx = Except.ok d ∧
      simData env cfg d.imgs d.maps (maskSel cfg d.masks) d.noise fresh
        (kspArg cfg d) = Except.ok out ∧
      r = ⟨d.imgs, mapsSel cfg d.maps, maskSel cfg d.masks, out, d.loss_masks⟩ := by
  unfold loadData at h
  split at h
  next e heq => exact Except.noConfusion h
  next d heq =>
    split at h
    next hs => exact Except.noConfusion h
    next hs =>
      split at h
      next hin => exact Except.noConfusion h
      next hin =>
        split at h
        next e heq2 => exact Except.noConfusion h
        next out heq2 => exact ⟨d, out, heq, heq2, (Except.ok.inj h).symm⟩

/-- Inversion of a successful `__getitem__`: the returned index is the
effective index, `_load_data` succeeded, and the sample is its packaging with
or without the batch-of-1 squeeze. -/
theorem getitem_ok_inv (env : Env K) (cfg : Cfg K) (A : StoreA K)
    (B : StoreB K) (fresh : Nat → Nat → Nat → Nat → K) (idx i : Nat)
    (s : Sample K) (h : getitem env cfg A B fresh idx = Except.ok (i, s)) :
    i = idxE cfg idx ∧ ∃ r, loadData env cfg A B fresh (idxE cfg idx) = Except.ok r ∧
      ((r.imgs.n1 = 1 ∧ s = packSq r) ∨ (¬ r.imgs.n1 = 1 ∧ s = packNoSq r)) := by
  unfold getitem at h
  split at h
  next e heq => exact Except.noConfusion h
  next r heq =>
    by_cases h1 : r.imgs.n1 = 1
    · rw [if_pos h1] at h
      have h2 := Except.ok.inj h
      exact ⟨(congrArg Prod.fst h2).symm, r, heq,
        Or.inl ⟨h1, (congrArg Prod.snd h2).symm⟩⟩
    · rw [if_neg h1] at h
      have h2 := Except.ok.inj h
      exact ⟨(congrArg Prod.fst h2).symm, r, heq,
        Or.inr ⟨h1, (congrArg Prod.snd h2).symm⟩⟩

/-- Claim C7: every successfully returned sample dict carries
single-precision complex `imgs`, `maps`, `out` and single-precision real
`masks`, `loss_masks`, set by the unconditional `.astype` coercions of
`__getitem__`. -/
theorem C7_dtypes (env : Env K) (cfg : Cfg K) (A : StoreA K) (B : StoreB K)
    (fresh : Nat → Nat → Nat → Nat → K) (idx i : Nat) (s : Sample K)
    (h : getitem env cfg A B fresh idx = Except.ok (i, s)) :
    s.imgs.1 = DType.complex64 ∧ s.maps.1 = DType.complex64 ∧
      s.out.1 = DType.complex64 ∧ s.masks.1 = DType.float32 ∧
      s.loss_masks.1 = DType.float32 := by
  obtain ⟨-, r, -, hbr⟩ := getitem_ok_inv _ _ _ _ _ _ _ _ h
  rcases hbr with ⟨-, rfl⟩ | ⟨-, rfl⟩ <;> exact ⟨rfl, rfl, rfl, rfl, rfl⟩

/-- Junk sample used by the total accessor below. -/
def sampleJunk : Sample ℤ :=
  ⟨astype DType.complex64 (NDArr.rk2 ⟨0, 0, fun _ _ => 0⟩),
   astype DType.complex64 (NDArr.rk2 ⟨0, 0, fun _ _ => 0⟩),
   astype DType.float32 (NDArr.rk2 ⟨0, 0, fun _ _ => 0⟩),
   astype DType.float32 (NDArr.rk2 ⟨0, 0, fun _ _ => 0⟩),
   astype DType.complex64 (NDArr.rk2 ⟨0, 0, fun _ _ => 0⟩)⟩

/-- Accessor giving the pair returned by a successful access. -/
def okPair (x : Except PyErr (Nat × Sample ℤ)) : Nat × Sample ℤ :=
  match x with
  | Except.ok p => p
  | Except.error _ => (0, sampleJunk)

/-- Witness for C7 at a successful concrete access. -/
theorem C7_dtypes_witness :
    (okPair (getitem envId cfgKsp storeA0 storeB0 fr0 0)).2.imgs.1 = DType.complex64 ∧
    (okPair (getitem envId cfgKsp storeA0 storeB0 fr0 0)).2.maps.1 = DType.complex64 ∧
    (okPair (getitem envId cfgKsp storeA0 storeB0 fr0 0)).2.out.1 = DType.complex64 ∧
    (okPair (getitem envId cfgKsp storeA0 storeB0 fr0 0)).2.masks.1 = DType.float32 ∧
    (okPair (getitem envId cfgKsp storeA0 storeB0 fr0 0)).2.loss_masks.1 = DType.float32 :=
  C7_dtypes envId cfgKsp storeA0 storeB0 fr0 0
    (okPair (getitem envId cfgKsp storeA0 storeB0 fr0 0)).1
    (okPair (getitem envId cfgKsp storeA0 storeB0 fr0 0)).2 rfl

/-- Claim C6: with `fully_sampled = true`, the `masks` field of any
successfully returned sample is an all-ones array of exactly the shape of the
mask slice originally loaded from the store (before the batch-of-1
normalization that the squeeze of `__getitem__` undoes). -/
theorem C6_fully_sampled_ones (env : Env K) (cfg : Cfg K) (A : StoreA K)
    (B : StoreB K) (fresh : Nat → Nat → Nat → Nat → K) (idx i : Nat)
    (s : Sample K) (d : Raw K) (m0 : Arr2 K)
    (hf : cfg.fully_sampled = true)
    (hload : rawLoad cfg A B (idxE cfg idx) = Except.ok d)
    (hm : d.masks = unsqLead3 m0)
    (h : getitem env cfg A B fresh idx = Except.ok (i, s)) :
    s.masks = astype DType.float32 (NDArr.rk2 ⟨m0.n1, m0.n2, fun _ _ => (1 : K)⟩) := by
  obtain ⟨-, r, hld, hbr⟩ := getitem_ok_inv _ _ _ _ _ _ _ _ h
  obtain ⟨d', out, hload', hsim, hr⟩ := loadData_ok_inv _ _ _ _ _ _ _ hld
  rw [hload] at hload'
  have hd := Except.ok.inj hload'
  subst hd
  subst hr
  have h1 : d.imgs.n1 = 1 := (rawLoad_ok_fields _ _ _ _ _ hload).1
  rcases hbr with ⟨-, rfl⟩ | ⟨hne, -⟩
  · simp [packSq, astype, maskSel, hf, hm, sq3, unsqLead3]
  · exact absurd h1 hne

/-- Fully-sampled Cartesian inverse-crime configuration. -/
def cfg6 : Cfg ℤ := ⟨0, false, true, false, true, false, none⟩

def d6 : Raw ℤ := okRaw (rawLoad cfg6 storeA0 storeB0 (idxE cfg6 0))

/-- Witness for C6 at the concrete store. -/
theorem C6_fully_sampled_ones_witness :
    (okPair (getitem envId cfg6 storeA0 storeB0 fr0 0)).2.masks =
      astype DType.float32 (NDArr.rk2 ⟨mk0.n1, mk0.n2, fun _ _ => (1 : ℤ)⟩) :=
  C6_fully_sampled_ones envId cfg6 storeA0 storeB0 fr0 0
    (okPair (getitem envId cfg6 storeA0 storeB0 fr0 0)).1
    (okPair (getitem envId cfg6 storeA0 storeB0 fr0 0)).2 d6 mk0
    rfl rfl rfl rfl

/-- Helper: `_sim_data` ignores the random draw when given explicit noise
(the draw is only consulted when the noise argument is absent). -/
theorem simData_fresh_irrel (env : Env K) (cfg : Cfg K) (imgs : Arr3 K)
    (maps : Arr4 K) (masks : Arr3 K) (n : Arr4 K)
    (f1 f2 : Nat → Nat → Nat → Nat → K) (ksp? : Option (Arr4 K)) :
    simData env cfg imgs maps masks (some n) f1 ksp? =
      simData env cfg imgs maps masks (some n) f2 ksp? := rfl

/-- Helper: the random draw is irrelevant to `_load_data` whenever the store
holds a precomputed noise dataset. -/
theorem loadData_fresh_irrel (env : Env K) (cfg : Cfg K) (A : StoreA K)
    (B : StoreB K) (f1 f2 : Nat → Nat → Nat → Nat → K) (idx : Nat)
    (nf : Nat → Arr3 K) (hB : B.noise = some nf) :
    loadData env cfg A B f1 idx = loadData env cfg A B f2 idx := by
  unfold loadData
  cases hrl : rawLoad cfg A B idx with
  | error e => rfl
  | ok d =>
    have hd : d.noise = some (unsqLead4 (nf idx)) := by
      rw [(rawLoad_ok_fields _ _ _ _ _ hrl).2, hB]
      rfl
    simp only [hd, simData_fresh_irrel env cfg d.imgs d.maps (maskSel cfg d.masks)
      (unsqLead4 (nf idx)) f1 f2 (kspArg cfg d)]

/-- Helper: the random draw is irrelevant to `__getitem__` whenever the store
holds a precomputed noise dataset. -/
theorem getitem_fresh_irrel (env : Env K) (cfg : Cfg K) (A : StoreA K)
    (B : StoreB K) (f1 f2 : Nat → Nat → Nat → Nat → K) (idx : Nat)
    (nf : Nat → Arr3 K) (hB : B.noise = some nf) :
    getitem env cfg A B f1 idx = getitem env cfg A B f2 idx := by
  unfold getitem
  rw [loadData_fresh_irrel env cfg A B f1 f2 (idxE cfg idx) nf hB]

/-- Claim C8: two accesses of the same index over identical store contents
return the same index and identical `imgs` and `maps`; when the store holds a
precomputed noise dataset the full samples (including `out`) coincide — the
random draw is the only source of nondeterminism. -/
theorem C8_deterministic (env : Env K) (cfg : Cfg K) (A : StoreA K)
    (B : StoreB K) (f1 f2 : Nat → Nat → Nat → Nat → K) (idx i1 i2 : Nat)
    (s1 s2 : Sample K)
    (h1 : getitem env cfg A B f1 idx = Except.ok (i1, s1))
    (h2 : getitem env cfg A B f2 idx = Except.ok (i2, s2)) :
    i1 = i2 ∧ s1.imgs = s2.imgs ∧ s1.maps = s2.maps ∧
      (B.noise.isSome = true → s1 = s2) := by
  refine ⟨?_, ?_, ?_, ?_⟩
  case _ =>
    obtain ⟨hi1, -⟩ := getitem_ok_inv _ _ _ _ _ _ _ _ h1
    obtain ⟨hi2, -⟩ := getitem_ok_inv _ _ _ _ _ _ _ _ h2
    exact hi1.trans hi2.symm
  case _ =>
    obtain ⟨-, r1, hld1, hbr1⟩ := getitem_ok_inv _ _ _ _ _ _ _ _ h1
    obtain ⟨-, r2, hld2, hbr2⟩ := getitem_ok_inv _ _ _ _ _ _ _ _ h2
    obtain ⟨d1, o1, hra1, -, hr1⟩ := loadData_ok_inv _ _ _ _ _ _ _ hld1
    obtain ⟨d2, o2, hra2, -, hr2⟩ := loadData_ok_inv _ _ _ _ _ _ _ hld2
    rw [hra1] at hra2
    have hd := Except.ok.inj hra2
    subst hd
    subst hr1
    subst hr2
    rcases hbr1 with ⟨e1, rfl⟩ | ⟨e1, rfl⟩ <;>
      rcases hbr2 with ⟨e2, rfl⟩ | ⟨e2, rfl⟩
    · rfl
    · exact absurd e1 e2
    · exact absurd e2 e1
    · rfl
  case _ =>
    obtain ⟨-, r1, hld1, hbr1⟩ := getitem_ok_inv _ _ _ _ _ _ _ _ h1
    obtain ⟨-, r2, hld2, hbr2⟩ := getitem_ok_inv _ _ _ _ _ _ _ _ h2
    obtain ⟨d1, o1, hra1, -, hr1⟩ := loadData_ok_inv _ _ _ _ _ _ _ hld1
    obtain ⟨d2, o2, hra2, -, hr2⟩ := loadData_ok_inv _ _ _ _ _ _ _ hld2
    rw [hra1] at hra2
    have hd := Except.ok.inj hra2
    subst hd
    subst hr1
    subst hr2
    rcases hbr1 with ⟨e1, rfl⟩ | ⟨e1, rfl⟩ <;>
      rcases hbr2 with ⟨e2, rfl⟩ | ⟨e2, rfl⟩
    · rfl
    · exact absurd e1 e2
    · exact absurd e2 e1
    · rfl
  case _ =>
    intro hbn
    obtain ⟨nf, hnf⟩ := Option.isSome_iff_exists.mp hbn
    have hg := getitem_fresh_irrel env cfg A B f1 f2 idx nf hnf
    rw [hg, h2] at h1
    exact (congrArg Prod.snd (Except.ok.inj h1)).symm

/-- Witness for C8: two accesses with different random draws over a store
holding precomputed noise. -/
theorem C8_deterministic_witness :
    (okPair (getitem envId cfgKsp storeA0 storeBn fr0 0)).1 =
      (okPair (getitem envId cfgKsp storeA0 storeBn fr1 0)).1 ∧
    (okPair (getitem envId cfgKsp storeA0 storeBn fr0 0)).2.imgs =
      (okPair (getitem envId cfgKsp storeA0 storeBn fr1 0)).2.imgs ∧
    (okPair (getitem envId cfgKsp storeA0 storeBn fr0 0)).2.maps =
      (okPair (getitem envId cfgKsp storeA0 storeBn fr1 0)).2.maps ∧
    (storeBn.noise.isSome = true →
      (okPair (getitem envId cfgKsp storeA0 storeBn fr0 0)).2 =
        (okPair (getitem envId cfgKsp storeA0 storeBn fr1 0)).2) :=
  C8_deterministic envId cfgKsp storeA0 storeBn fr0 fr1 0
    (okPair (getitem envId cfgKsp storeA0 storeBn fr0 0)).1
    (okPair (getitem envId cfgKsp storeA0 storeBn fr1 0)).1
    (okPair (getitem envId cfgKsp storeA0 storeBn fr0 0)).2
    (okPair (getitem envId cfgKsp storeA0 storeBn fr1 0)).2
    rfl rfl

end Mcmri
